import Mathlib

/-!
Shallow embedding of `src/components/config/opts.rs` (servo's command-line
configuration resolver).

Modelling conventions:
* Rust machine integers are `Nat`/`Int` with explicit range checks
  (`usize`/`u32`/`u16` parse via `parseUnsigned`, `i64` via `parseI64`).
* Rust `f64`/`f32` values are modelled by `Float64`: a finite value carries
  the exact decimal (sign, mantissa, power of ten) produced by the parse
  (binary rounding of the `f64` representation is not modelled; no claim
  depends on it), plus infinity/NaN.
* Process-terminating effects (`print_usage` + `process::exit(0)`,
  `print_debug_usage`, `args_fail` = write to stderr + `process::exit(1)`,
  Rust panics from `.expect(..)` or out-of-bounds indexing) are modelled by the
  `Term` outcome type of an `Except Term` computation.
* `&mut self` mutation in `DebugOptions::extend` is modelled by explicit state
  passing: `extendTokens` returns the record as mutated so far together with
  an optional error, matching the fact that in Rust the mutations performed
  before an error are retained in the record.
* The crates `getopts` (external), `servo_url`/`url` and `crate::prefs` (parts
  of the repository not present under `src/`) are not translated line by
  line: `getopts` output is abstracted as the `Matches` record, and the
  missing repository parts are modelled from the spec where marked.
-/

deriving instance DecidableEq for Except

/-- Rust `f64` (and `f32`) values as produced by `FromStr`.  A finite value
is `(-1)^neg * mantissa * 10^exp10` with the mantissa kept free of trailing
zeros (binary rounding of the `f64` representation is not modelled; no
claim compares two differently-written decimals). -/
inductive Float64 where
  | finite (neg : Bool) (mantissa : Nat) (exp10 : Int)
  | infinity (neg : Bool)
  | nan
deriving DecidableEq, Repr

/-- Canonicalize a decimal mantissa/exponent pair by stripping trailing
zeros (`fuel` bounds the number of strips). -/
def canonDecAux (fuel : Nat) (m : Nat) (e : Int) : Nat × Int :=
  match fuel with
  | 0 => (m, e)
  | fuel + 1 =>
    if m ≠ 0 ∧ m % 10 = 0 then canonDecAux fuel (m / 10) (e + 1) else (m, e)

/-- Canonical finite decimal: zero is `(0, 0)`, otherwise trailing zeros of
the mantissa are folded into the exponent. -/
def canonDec (m : Nat) (e : Int) : Nat × Int :=
  if m = 0 then (0, 0) else canonDecAux m m e

/-- Value of an ASCII digit. -/
def digitVal (c : Char) : Nat := c.toNat - 48

/-- Parse a nonempty all-digit character list to its base-10 value
(shared core of Rust's integer `FromStr`). -/
def parseDigits (cs : List Char) : Option Nat :=
  if cs.isEmpty then none
  else if cs.all Char.isDigit then
    some (cs.foldl (fun a c => a * 10 + digitVal c) 0)
  else none

/-- Rust unsigned-integer `FromStr` (base 10): optional leading `'+'`, one or
more digits, value below `bound` (2^width). -/
def parseUnsigned (bound : Nat) (s : String) : Option Nat :=
  let cs := match s.data with
    | '+' :: rest => rest
    | cs => cs
  match parseDigits cs with
  | some n => if n < bound then some n else none
  | none => none

/-- Rust `u16::from_str`. -/
def parseU16 (s : String) : Option Nat := parseUnsigned (2 ^ 16) s

/-- Rust `u32::from_str`. -/
def parseU32 (s : String) : Option Nat := parseUnsigned (2 ^ 32) s

/-- Rust `usize::from_str` on a 64-bit target. -/
def parseUsize (s : String) : Option Nat := parseUnsigned (2 ^ 64) s

/-- Rust `i64::from_str`: optional sign, digits, value in `[-2^63, 2^63)`. -/
def parseI64 (s : String) : Option Int :=
  match s.data with
  | '-' :: rest =>
    (parseDigits rest).bind fun n =>
      if n ≤ 2 ^ 63 then some (-(n : Int)) else none
  | '+' :: rest =>
    (parseDigits rest).bind fun n =>
      if n < 2 ^ 63 then some ((n : Int)) else none
  | cs =>
    (parseDigits cs).bind fun n =>
      if n < 2 ^ 63 then some ((n : Int)) else none

/-- Longest digit run at the head of a character list, with the rest. -/
def spanDigits (cs : List Char) : List Char × List Char :=
  (cs.takeWhile Char.isDigit, cs.dropWhile Char.isDigit)

/-- Base-10 value of a digit list (empty list is 0). -/
def digitsVal (cs : List Char) : Nat :=
  cs.foldl (fun a c => a * 10 + digitVal c) 0

/-- The optional exponent part of Rust's float grammar (`e`/`E`, optional
sign, one or more digits); it must consume the whole remaining input.
Returns the signed decimal exponent (`0` when absent). -/
def parseExp10 (cs : List Char) : Option Int :=
  match cs with
  | [] => some 0
  | e :: rest =>
    if e = 'e' ∨ e = 'E' then
      let (eneg, rest) := match rest with
        | '-' :: r => (true, r)
        | '+' :: r => (false, r)
        | r => (false, r)
      let (ds, rest) := spanDigits rest
      if ds.isEmpty ∨ ¬rest.isEmpty then none
      else some (if eneg then -(digitsVal ds : Int) else (digitsVal ds : Int))
    else none

/-- The `Number` production of Rust's `f64::from_str` grammar:
`Digits '.'? Digits? Exp?  |  '.' Digits Exp?`, as a mantissa/decimal
exponent pair. -/
def parseF64Number (cs : List Char) : Option (Nat × Int) :=
  let (ip, rest) := spanDigits cs
  match rest with
  | '.' :: rest2 =>
    let (fp, rest3) := spanDigits rest2
    if ip.isEmpty ∧ fp.isEmpty then none
    else (parseExp10 rest3).map fun e => (digitsVal (ip ++ fp), e - fp.length)
  | _ =>
    if ip.isEmpty then none
    else (parseExp10 rest).map fun e => (digitsVal ip, e)

/-- Rust `f64::from_str` (also used for `f32` fields): optional sign, then
case-insensitively `inf`/`infinity`/`nan`, or a decimal number with optional
fraction and exponent. -/
def parseF64 (s : String) : Option Float64 :=
  let cs := s.data
  let (neg, cs) := match cs with
    | '-' :: r => (true, r)
    | '+' :: r => (false, r)
    | r => (false, r)
  let lower := cs.map Char.toLower
  if lower = "inf".data ∨ lower = "infinity".data then some (.infinity neg)
  else if lower = "nan".data then some .nan
  else
    (parseF64Number cs).map fun me =>
      let (m, e) := canonDec me.1 me.2
      .finite neg m e

/-- Rust `str::split(sep)` on character lists: the (possibly empty)
segments between occurrences of the separator; the empty input gives one
empty segment, like Rust. -/
def rustSplitCharList (sep : Char) : List Char → List (List Char)
  | [] => [[]]
  | c :: cs =>
    if c = sep then [] :: rustSplitCharList sep cs
    else
      match rustSplitCharList sep cs with
      | h :: t => (c :: h) :: t
      | [] => [[c]]

/-- Rust `str::split(sep)` for a character separator. -/
def rustSplitChar (sep : Char) (s : String) : List String :=
  (rustSplitCharList sep s.data).map String.mk

/-- Rust `str::starts_with(pat)`. -/
def strStartsWith (s pat : String) : Bool :=
  pat.data.isPrefixOf s.data

/-- Modelled from the spec: `PrefValue`, the tagged union
{boolean, integer, float, string} of `crate::prefs` (`prefs.rs` is not under
`src/`; spec §3 "Preference Entry"). -/
inductive PrefValue where
  | bool (b : Bool)
  | int (i : Int)
  | float (f : Float64)
  | str (s : String)
deriving DecidableEq, Repr

/-- Debug options for Servo, set on the command line with `-Z`
(struct `DebugOptions`, opts.rs lines 249–343).  All fields default to
`false` (`#[derive(Default)]`). -/
structure DebugOptions where
  help : Bool
  bubble_widths : Bool
  disable_text_aa : Bool
  disable_subpixel_aa : Bool
  disable_canvas_aa : Bool
  dump_style_tree : Bool
  dump_rule_tree : Bool
  dump_flow_tree : Bool
  dump_display_list : Bool
  dump_display_list_json : Bool
  relayout_event : Bool
  profile_script_events : Bool
  profile_heartbeats : Bool
  show_fragment_borders : Bool
  show_parallel_layout : Bool
  trace_layout : Bool
  disable_share_style_cache : Bool
  style_sharing_stats : Bool
  convert_mouse_to_touch : Bool
  replace_surrogates : Bool
  gc_profile : Bool
  load_webfonts_synchronously : Bool
  disable_vsync : Bool
  webrender_stats : Bool
  webrender_record : Bool
  webrender_disable_batch : Bool
  use_msaa : Bool
  full_backtraces : Bool
  precache_shaders : Bool
  signpost : Bool
deriving DecidableEq, Repr

/-- `DebugOptions::default()`: every field `false`. -/
def DebugOptions.default : DebugOptions :=
  { help := false, bubble_widths := false, disable_text_aa := false
    disable_subpixel_aa := false, disable_canvas_aa := false
    dump_style_tree := false, dump_rule_tree := false, dump_flow_tree := false
    dump_display_list := false, dump_display_list_json := false
    relayout_event := false, profile_script_events := false
    profile_heartbeats := false, show_fragment_borders := false
    show_parallel_layout := false, trace_layout := false
    disable_share_style_cache := false, style_sharing_stats := false
    convert_mouse_to_touch := false, replace_surrogates := false
    gc_profile := false, load_webfonts_synchronously := false
    disable_vsync := false, webrender_stats := false
    webrender_record := false, webrender_disable_batch := false
    use_msaa := false, full_backtraces := false, precache_shaders := false
    signpost := false }

/-- One arm of the `match option` in `DebugOptions::extend`
(opts.rs lines 348–381), including the `""` skip arm; `none` is the wildcard
`_ => return Err(..)` arm.  Note line 353 of the source:
`"disable-canvas-aa" => self.disable_text_aa = true`. -/
def applyToken (d : DebugOptions) (option : String) : Option DebugOptions :=
  match option with
  | "help" => some { d with help := true }
  | "bubble-widths" => some { d with bubble_widths := true }
  | "disable-text-aa" => some { d with disable_text_aa := true }
  | "disable-subpixel-aa" => some { d with disable_subpixel_aa := true }
  | "disable-canvas-aa" => some { d with disable_text_aa := true }
  | "dump-style-tree" => some { d with dump_style_tree := true }
  | "dump-rule-tree" => some { d with dump_rule_tree := true }
  | "dump-flow-tree" => some { d with dump_flow_tree := true }
  | "dump-display-list" => some { d with dump_display_list := true }
  | "dump-display-list-json" => some { d with dump_display_list_json := true }
  | "relayout-event" => some { d with relayout_event := true }
  | "profile-script-events" => some { d with profile_script_events := true }
  | "profile-heartbeats" => some { d with profile_heartbeats := true }
  | "show-fragment-borders" => some { d with show_fragment_borders := true }
  | "show-parallel-layout" => some { d with show_parallel_layout := true }
  | "trace-layout" => some { d with trace_layout := true }
  | "disable-share-style-cache" => some { d with disable_share_style_cache := true }
  | "style-sharing-stats" => some { d with style_sharing_stats := true }
  | "convert-mouse-to-touch" => some { d with convert_mouse_to_touch := true }
  | "replace-surrogates" => some { d with replace_surrogates := true }
  | "gc-profile" => some { d with gc_profile := true }
  | "load-webfonts-synchronously" => some { d with load_webfonts_synchronously := true }
  | "disable-vsync" => some { d with disable_vsync := true }
  | "wr-stats" => some { d with webrender_stats := true }
  | "wr-record" => some { d with webrender_record := true }
  | "wr-no-batch" => some { d with webrender_disable_batch := true }
  | "msaa" => some { d with use_msaa := true }
  | "full-backtraces" => some { d with full_backtraces := true }
  | "precache-shaders" => some { d with precache_shaders := true }
  | "signpost" => some { d with signpost := true }
  | "" => some d
  | _ => none

/-- The loop of `DebugOptions::extend` over the comma-split token list.
Returns the record as mutated so far (the `&mut self` state) together with
`some t` for the first token hitting the `Err` arm, or `none` on success. -/
def extendTokens (d : DebugOptions) : List String → DebugOptions × Option String
  | [] => (d, none)
  | t :: ts =>
    match applyToken d t with
    | some d' => extendTokens d' ts
    | none => (d, some t)

/-- `DebugOptions::extend(&mut self, debug_string)` (opts.rs lines 346–384):
split on `','` and process the tokens in order.  The second component is
`some t` exactly when the Rust function returns `Err(t)`. -/
def DebugOptions.extend (d : DebugOptions) (debug_string : String) :
    DebugOptions × Option String :=
  extendTokens d (rustSplitChar ',' debug_string)

/-- Known/empty tokens succeed independently of the record state. -/
theorem applyToken_isSome_iff (d d' : DebugOptions) (t : String) :
    (applyToken d t).isSome ↔ (applyToken d' t).isSome := by
  unfold applyToken
  split <;> simp

/-- Chained successful application of a token list (used to describe the
record state reached just before an unknown token). -/
def applyAll (d : DebugOptions) : List String → Option DebugOptions
  | [] => some d
  | t :: ts => (applyToken d t).bind fun d' => applyAll d' ts

/-- `enum OutputOptions` (opts.rs lines 486–491): where profiler output is
routed.  `db` carries the URL and the (name, user, pass) credential options,
in the order they are passed at the construction site (lines 854–859). -/
inductive OutputOptions where
  | db (url : String) (dbName dbUser dbPass : Option String)
  | fileName (s : String)
  | stdout (interval : Float64)
deriving DecidableEq, Repr

/-- `enum UserAgent` (opts.rs lines 505–510). -/
inductive UserAgent where
  | desktop
  | android
  | iOS
deriving DecidableEq, Repr

/-- `default_user_agent_string` (opts.rs lines 512–539), fixing the
compile-time configuration `target_os = "linux"`, `target_arch = "x86_64"`. -/
def default_user_agent_string (agent : UserAgent) : String :=
  match agent with
  | .desktop => "Mozilla/5.0 (X11; Linux x86_64; rv:63.0) Servo/1.0 Firefox/63.0"
  | .android => "Mozilla/5.0 (Android; Mobile; rv:63.0) Servo/1.0 Firefox/63.0"
  | .iOS => "Mozilla/5.0 (iPhone; CPU iPhone OS 8_3 like Mac OS X; rv:63.0) Servo/1.0 Firefox/63.0"

/-- `DEFAULT_USER_AGENT` for a non-android, non-ios target (line 548). -/
def DEFAULT_USER_AGENT : UserAgent := .desktop

/-- `struct Opts` (opts.rs lines 26–237).  `ServoUrl`, `Cow<str>` and
`PathBuf` values are modelled as `String`; `f32`/`f64` as `Float64`;
`usize`/`u16`/`u32` as `Nat`; stylesheet byte contents as `List Nat`. -/
structure Opts where
  is_running_problem_test : Bool
  url : Option String
  tile_size : Nat
  device_pixels_per_px : Option Float64
  time_profiling : Option OutputOptions
  time_profiler_trace_path : Option String
  mem_profiler_period : Option Float64
  nonincremental_layout : Bool
  userscripts : Option String
  user_stylesheets : List (List Nat × String)
  output_file : Option String
  replace_surrogates : Bool
  gc_profile : Bool
  load_webfonts_synchronously : Bool
  headless : Bool
  angle : Bool
  hard_fail : Bool
  bubble_inline_sizes_separately : Bool
  show_debug_fragment_borders : Bool
  show_debug_parallel_layout : Bool
  enable_text_antialiasing : Bool
  enable_subpixel_text_antialiasing : Bool
  enable_canvas_antialiasing : Bool
  trace_layout : Bool
  profile_script_events : Bool
  profile_heartbeats : Bool
  debugger_port : Option Nat
  devtools_port : Option Nat
  webdriver_port : Option Nat
  initial_window_size : Nat × Nat
  user_agent : String
  multiprocess : Bool
  sandbox : Bool
  random_pipeline_closure_probability : Option Float64
  random_pipeline_closure_seed : Option Nat
  dump_style_tree : Bool
  dump_rule_tree : Bool
  dump_flow_tree : Bool
  dump_display_list : Bool
  dump_display_list_json : Bool
  relayout_event : Bool
  disable_share_style_cache : Bool
  style_sharing_stats : Bool
  convert_mouse_to_touch : Bool
  exit_after_load : Bool
  no_native_titlebar : Bool
  enable_vsync : Bool
  webrender_stats : Bool
  webrender_record : Bool
  webrender_batch : Bool
  shaders_dir : Option String
  precache_shaders : Bool
  use_msaa : Bool
  config_dir : Option String
  full_backtraces : Bool
  signpost : Bool
  is_printing_version : Bool
  certificate_path : Option String
  unminify_js : Bool
  print_pwm : Bool
  clean_shutdown : Bool
deriving DecidableEq, Repr

/-- `default_opts()` (opts.rs lines 550–614). -/
def default_opts : Opts :=
  { is_running_problem_test := false
    url := none
    tile_size := 512
    device_pixels_per_px := none
    time_profiling := none
    time_profiler_trace_path := none
    mem_profiler_period := none
    nonincremental_layout := false
    userscripts := none
    user_stylesheets := []
    output_file := none
    replace_surrogates := false
    gc_profile := false
    load_webfonts_synchronously := false
    headless := false
    angle := false
    hard_fail := true
    bubble_inline_sizes_separately := false
    show_debug_fragment_borders := false
    show_debug_parallel_layout := false
    enable_text_antialiasing := true
    enable_subpixel_text_antialiasing := true
    enable_canvas_antialiasing := true
    trace_layout := false
    profile_script_events := false
    profile_heartbeats := false
    debugger_port := none
    devtools_port := none
    webdriver_port := none
    initial_window_size := (1024, 740)
    user_agent := default_user_agent_string DEFAULT_USER_AGENT
    multiprocess := false
    sandbox := false
    random_pipeline_closure_probability := none
    random_pipeline_closure_seed := none
    dump_style_tree := false
    dump_rule_tree := false
    dump_flow_tree := false
    dump_display_list := false
    dump_display_list_json := false
    relayout_event := false
    disable_share_style_cache := false
    style_sharing_stats := false
    convert_mouse_to_touch := false
    exit_after_load := false
    no_native_titlebar := false
    enable_vsync := true
    webrender_stats := false
    webrender_record := false
    webrender_batch := true
    shaders_dir := none
    precache_shaders := false
    use_msaa := false
    config_dir := none
    full_backtraces := false
    signpost := false
    is_printing_version := false
    certificate_path := none
    unminify_js := false
    print_pwm := false
    clean_shutdown := false }

/-- `enum ArgumentParsingResult` (opts.rs lines 1080–1083). -/
inductive ArgumentParsingResult where
  | chromeProcess
  | contentProcess (channel : String)
deriving DecidableEq, Repr

/-- Ways `from_cmdline_args` can terminate the process instead of returning.
`usageExit` and `debugUsageExit` print help and call `process::exit(0)`;
`argsFail msg` is `args_fail` (write `msg` to stderr, `process::exit(1)`,
lines 493–496); `panicMsg` is a Rust panic (`.expect(..)` or an
out-of-bounds index), which is not a `process::exit(1)`. -/
inductive Term where
  | usageExit
  | debugUsageExit
  | argsFail (msg : String)
  | panicMsg (msg : String)
deriving DecidableEq, Repr

/-- The `getopts` match object, abstracting the output of
`opts.parse(args)` for the schema declared in lines 619–780.  The `getopts`
crate is an external dependency; each field records the query result the
source performs on `opt_match`:
`opt_present` queries become `Bool` fields, `opt_str` queries `Option String`,
`opt_strs` queries `List String`, and `opt_default(name, d)` queries
`Option String` that is `some d` when the flag is present without a value. -/
structure Matches where
  /-- `opt_present("h") || opt_present("help")`. -/
  help : Bool
  /-- `opt_str("content-process")`. -/
  contentProcess : Option String
  /-- `opt_strs("Z")`. -/
  zStrings : List String
  /-- leftover positional arguments `opt_match.free`. -/
  free : List String
  /-- `opt_str("s")` (tile size). -/
  sStr : Option String
  /-- `opt_str("device-pixel-ratio")`. -/
  dppxStr : Option String
  /-- `opt_present("p")`. -/
  pPresent : Bool
  /-- `opt_str("p")`. -/
  pStr : Option String
  /-- `opt_str("profiler-trace-path")`. -/
  profilerTracePath : Option String
  /-- `opt_default("m", "5")`. -/
  mPeriod : Option String
  /-- `opt_str("y")` (layout threads). -/
  yStr : Option String
  /-- `opt_present("i")`. -/
  iPresent : Bool
  /-- `opt_str("random-pipeline-closure-probability")`. -/
  randomPipelineClosureProbability : Option String
  /-- `opt_str("random-pipeline-closure-seed")`. -/
  randomPipelineClosureSeed : Option String
  /-- `opt_default("remote-debugging-port", "2794")`. -/
  remoteDebuggingPort : Option String
  /-- `opt_default("devtools", "6000")`. -/
  devtools : Option String
  /-- `opt_default("webdriver", "7000")`. -/
  webdriver : Option String
  /-- `opt_str("resolution")`. -/
  resolution : Option String
  /-- `opt_str("u")` (user agent). -/
  uStr : Option String
  /-- `opt_present("M")` (multiprocess). -/
  bigM : Bool
  /-- `opt_present("S")` (sandbox). -/
  bigS : Bool
  /-- `opt_strs("user-stylesheet")`. -/
  userStylesheets : List String
  /-- `opt_present("b")` (no-native-titlebar). -/
  bPresent : Bool
  /-- `opt_present("v") || opt_present("version")`. -/
  version : Bool
  /-- `opt_str("o")` (output file). -/
  oStr : Option String
  /-- `opt_default("userscripts", "")`. -/
  userscripts : Option String
  /-- `opt_present("z")` (headless). -/
  zHeadless : Bool
  /-- `opt_present("angle")`. -/
  angle : Bool
  /-- `opt_present("f")` (hard-fail). -/
  fPresent : Bool
  /-- `opt_present("F")` (soft-fail). -/
  bigF : Bool
  /-- `opt_present("x")` (exit after load). -/
  xPresent : Bool
  /-- `opt_str("config-dir")`. -/
  configDir : Option String
  /-- `opt_str("shaders")`. -/
  shaders : Option String
  /-- `opt_str("certificate-path")`. -/
  certificatePath : Option String
  /-- `opt_present("unminify-js")`. -/
  unminifyJs : Bool
  /-- `opt_present("print-pwm")`. -/
  printPwm : Bool
  /-- `opt_present("clean-shutdown")`. -/
  cleanShutdown : Bool
  /-- `opt_strs("pref")`. -/
  prefs : List String
  /-- `opt_str("profiler-db-user")`. -/
  profilerDbUser : Option String
  /-- `opt_str("profiler-db-pass")`. -/
  profilerDbPass : Option String
  /-- `opt_str("profiler-db-name")`. -/
  profilerDbName : Option String

/-- The match object produced by an empty argument list: no flag present,
no positional argument. -/
def emptyMatches : Matches :=
  { help := false, contentProcess := none, zStrings := [], free := []
    sStr := none, dppxStr := none, pPresent := false, pStr := none
    profilerTracePath := none, mPeriod := none, yStr := none
    iPresent := false, randomPipelineClosureProbability := none
    randomPipelineClosureSeed := none, remoteDebuggingPort := none
    devtools := none, webdriver := none, resolution := none, uStr := none
    bigM := false, bigS := false, userStylesheets := [], bPresent := false
    version := false, oStr := none, userscripts := none, zHeadless := false
    angle := false, fPresent := false, bigF := false, xPresent := false
    configDir := none, shaders := none, certificatePath := none
    unminifyJs := false, printPwm := false, cleanShutdown := false
    prefs := [], profilerDbUser := none, profilerDbPass := none
    profilerDbName := none }

/-- The preference mapping: an association list from dotted preference names
to values (the external preference storage the resolver writes into). -/
abbrev PrefsMap := List (String × PrefValue)

/-- Insert or update one entry of the preference mapping. -/
def prefsInsert (m : PrefsMap) (name : String) (v : PrefValue) : PrefsMap :=
  match m with
  | [] => [(name, v)]
  | (n, w) :: rest =>
    if n = name then (n, v) :: rest else (n, w) :: prefsInsert rest name v

/-- The process-wide mutable state of opts.rs: the `MULTIPROCESS` atomic
(line 498), the `OPTIONS` store (lines 1088–1090) and the external preference
mapping written through `crate::prefs`. -/
structure Global where
  multiprocess : Bool
  options : Opts
  prefsMap : PrefsMap
deriving DecidableEq

/-- The state at process start, before any resolution:
`MULTIPROCESS = false`, `OPTIONS = RwLock::new(default_opts())`, empty
preference map. -/
def initGlobal : Global :=
  { multiprocess := false, options := default_opts, prefsMap := [] }

/-- `pub fn multiprocess()` (opts.rs lines 500–503): read the mirrored flag. -/
def multiprocessQuery (g : Global) : Bool := g.multiprocess

/-- `pub fn set_options(opts)` (opts.rs lines 1092–1095): store
`opts.multiprocess` into `MULTIPROCESS` and replace the `OPTIONS` snapshot. -/
def set_options (opts : Opts) (g : Global) : Global :=
  { g with multiprocess := opts.multiprocess, options := opts }

/-- Environment abstracting the external collaborators of
`from_cmdline_args` that are not part of `src/`: the two `pref!` reads, the
external preference schema, the bulk user preferences, the filesystem (for
user stylesheets) and cwd-relative URL resolution. -/
structure Env where
  /-- value of `pref!(shell.native_titlebar.enabled)` (line 990). -/
  prefNativeTitlebar : Bool
  /-- value of `pref!(gfx.subpixel_text_antialiasing.enabled)` (line 993). -/
  prefSubpixelAA : Bool
  /-- Modelled from the spec: the external preference schema of
  `crate::prefs` — which dotted names `pref_map().set` accepts. -/
  schema : String → Bool
  /-- Modelled from the spec: the bulk preference entries that
  `prefs::add_user_prefs()` (line 1067) merges into the mapping. -/
  userPrefs : List (String × PrefValue)
  /-- `File::open` + `read_to_end` for a stylesheet path: `some bytes` or a
  failure. -/
  readFile : String → Option (List Nat)
  /-- `parse_url_or_filename(&cwd, url_string)` (lines 823–830, 1127–1135):
  the resolved URL, or `none` on failure (which is non-fatal there). -/
  urlOrFilename : String → Option String

/-- Modelled from the spec: `ServoUrl::parse` (the repository's `servo_url`
component over the `url` crate, not under `src/`), used for the profiler
argument.  The spec asks for "a well-formed remote-endpoint URL"; an
absolute URL must start with a scheme (a letter, then letters, digits,
plus, minus or dot) followed by `':'`.  A string with no such scheme prefix (e.g. a bare file
name) is a relative URL without a base and fails to parse. -/
def schemeRest : List Char → Bool
  | [] => false
  | ':' :: _ => true
  | c :: rest => (c.isAlphanum || c = '+' || c = '-' || c = '.') && schemeRest rest

/-- See `schemeRest`; scheme detection for `servoUrlParse`. -/
def hasScheme : List Char → Bool
  | [] => false
  | c :: rest => c.isAlpha && schemeRest rest

/-- Modelled from the spec: `ServoUrl::parse` as absolute-URL detection;
returns the (unmodified) URL string on success. -/
def servoUrlParse (s : String) : Option String :=
  if hasScheme s.data then some s else none

/-- Rust `str::splitn(2, sep)` on character lists: everything before the
first separator, and (if a separator occurs) the whole remainder. -/
def splitn2List (sep : Char) : List Char → List Char × Option (List Char)
  | [] => ([], none)
  | c :: cs =>
    if c = sep then ([], some cs)
    else
      let (a, r) := splitn2List sep cs
      (c :: a, r)

/-- Rust `str::splitn(2, sep)` as used in `parse_pref_from_command_line`
(line 1103): the first component is `split[0]`, the second is
`split.get(1).cloned()`. -/
def splitn2 (s : String) (sep : Char) : String × Option String :=
  let (a, r) := splitn2List sep s.data
  (String.mk a, r.map String.mk)

/-- `parse_cli_pref_value` (opts.rs lines 1111–1125): the five-case ordered
trial turning an optional raw string into a typed preference value. -/
def parse_cli_pref_value (input : Option String) : PrefValue :=
  match input with
  | some "true" | none => .bool true
  | some "false" => .bool false
  | some string =>
    match parseI64 string with
    | some int => .int int
    | none =>
      match parseF64 string with
      | some float => .float float
      | none => .str string

/-- Modelled from the spec: `prefs::pref_map().set(name, value)`
(`prefs.rs` is not under `src/`).  Spec §4.3: "Writing a resolved preference
by name must fail loudly ... if the name is unknown to the external
preference schema — coercion does not create new preference keys." -/
def prefMapSet (schema : String → Bool) (m : PrefsMap) (name : String)
    (v : PrefValue) : Except String PrefsMap :=
  if schema name then .ok (prefsInsert m name v) else .error name

/-- `parse_pref_from_command_line` (opts.rs lines 1102–1109).  The
`.expect(format!("Error setting preference: ..."))` on the `set` result is a
Rust panic, modelled as `Term.panicMsg`. -/
def parse_pref_from_command_line (schema : String → Bool) (m : PrefsMap)
    (pref : String) : Except Term PrefsMap :=
  let split := splitn2 pref '='
  let pref_name := split.1
  let pref_value := parse_cli_pref_value split.2
  match prefMapSet schema m pref_name pref_value with
  | .ok m' => .ok m'
  | .error _ => .error (.panicMsg ("Error setting preference: " ++ pref))

/-- The `-Z` loop of `from_cmdline_args` (opts.rs lines 799–805): extend the
debug options with each `-Z` string; on `Err(e)`, `args_fail` with the
"unrecognized debug option" message. -/
def extendAllZ (d : DebugOptions) : List String → Except Term DebugOptions
  | [] => .ok d
  | s :: rest =>
    match DebugOptions.extend d s with
    | (d', none) => extendAllZ d' rest
    | (_, some e) =>
      .error (.argsFail ("error: unrecognized debug option: " ++ e))

/-- Option-flag parsing helper: the repeated
`opt_match.opt_str(..).map(|x| x.parse().unwrap_or_else(|err| args_fail(..)))`
pattern.  The dynamic `({err})` suffix of each message is elided. -/
def optParse {α : Type} (o : Option String) (p : String → Option α)
    (msg : String) : Except Term (Option α) :=
  match o with
  | none => .ok none
  | some s =>
    match p s with
    | some v => .ok (some v)
    | none => .error (.argsFail msg)

/-- `initial_window_size` computation of `from_cmdline_args`
(opts.rs lines 947–960): split the resolution string on `'x'`, parse every
component as `u32` (`args_fail` on a parse error), then index `res[0]` and
`res[1]` — the indexing panics when the component is missing. -/
def initialWindowSizeOf (res : Option String) : Except Term (Nat × Nat) :=
  match res with
  | some res_string =>
    match (rustSplitChar 'x' res_string).mapM parseU32 with
    | some resList =>
      match resList[0]?, resList[1]? with
      | some w, some h => .ok (w, h)
      | _, _ => .error (.panicMsg "index out of bounds")
    | none => .error (.argsFail "Error parsing option: --resolution")
  | none => .ok (1024, 740)

/-- `time_profiling` computation of `from_cmdline_args`
(opts.rs lines 848–868): if `-p` is present, try `f64` parse, then URL
parse (remote database with the three `profiler-db-*` credential options),
then fall back to a file name; `-p` with no value is stdout every 5 s. -/
def timeProfilingOf (m : Matches) : Option OutputOptions :=
  if m.pPresent then
    some (match m.pStr with
      | some argument =>
        match parseF64 argument with
        | some interval => .stdout interval
        | none =>
          match servoUrlParse argument with
          | some url =>
            .db url m.profilerDbName m.profilerDbUser m.profilerDbPass
          | none => .fileName argument
      | none => .stdout (.finite false 5 0))
  else none

/-- The user-stylesheet loop (opts.rs lines 974–987): read each file fully
(`args_fail` if it cannot be opened or read) and pair the bytes with the
file URL (the cwd prefix of `Url::from_file_path(cwd.join(filename))` is
elided). -/
def readStylesheets (env : Env) :
    List String → Except Term (List (List Nat × String))
  | [] => .ok []
  | filename :: rest =>
    match env.readFile filename with
    | some contents =>
      (readStylesheets env rest).map
        (fun tail => (contents, "file://" ++ filename) :: tail)
    | none => .error (.argsFail ("Couldn't open or read " ++ filename))

/-- The main body of `from_cmdline_args` (opts.rs lines 799–1077), entered
once neither the help path (lines 787–790) nor the content-process
short-circuit (lines 794–797) has fired; see `from_cmdline_args` for the
triage. -/
def fromCmdlineArgsMain (env : Env) (m : Matches) (g : Global) :
    Except Term (ArgumentParsingResult × Global) := do
    -- lines 799–805
    let debug_options ← extendAllZ DebugOptions.default m.zStrings
    -- lines 807–809
    if debug_options.help then throw Term.debugUsageExit
    -- lines 811–830 (warn-and-drop on URL parse failure is non-fatal)
    let url_opt := m.free.head?
    let is_running_problem_test :=
      match url_opt with
      | some url =>
        strStartsWith url "http://web-platform.test:8000/2dcontext/drawing-images-to-the-canvas/" ||
          strStartsWith url "http://web-platform.test:8000/_mozilla/mozilla/canvas/" ||
          strStartsWith url "http://web-platform.test:8000/_mozilla/css/canvas_over_area.html"
      | none => false
    let url_opt := url_opt.bind env.urlOrFilename
    -- lines 832–837
    let tile_size ← match m.sStr with
      | some tile_size_str =>
        match parseUsize tile_size_str with
        | some n => pure n
        | none => throw (Term.argsFail "Error parsing option: -s")
      | none => pure 512
    -- lines 839–846 (f32 in the source)
    let device_pixels_per_px ←
      optParse m.dppxStr parseF64 "Error parsing option: --device-pixel-ratio"
    -- lines 848–868
    let time_profiling := timeProfilingOf m
    -- lines 870–880: create_dir_all failure for profiler-trace-path is only
    -- logged, so it has no effect here
    -- lines 882–886
    let mem_profiler_period ←
      optParse m.mPeriod parseF64 "Error parsing option: -m"
    -- lines 888–892
    let layout_threads ← optParse m.yStr parseUsize "Error parsing option: -y"
    -- line 894
    let nonincremental_layout := m.iPresent
    -- lines 896–905 (f32 in the source)
    let random_pipeline_closure_probability ←
      optParse m.randomPipelineClosureProbability parseF64
        "Error parsing option: --random-pipeline-closure-probability"
    -- lines 907–917
    let random_pipeline_closure_seed ←
      optParse m.randomPipelineClosureSeed parseUsize
        "Error parsing option: --random-pipeline-closure-seed"
    -- lines 919–923
    let bubble_inline_sizes_separately := debug_options.bubble_widths
    let (layout_threads, bubble_inline_sizes_separately) :=
      if debug_options.trace_layout then (some 1, true)
      else (layout_threads, bubble_inline_sizes_separately)
    -- lines 925–934
    let debugger_port ←
      optParse m.remoteDebuggingPort parseU16
        "Error parsing option: --remote-debugging-port"
    -- lines 936–939
    let devtools_port ←
      optParse m.devtools parseU16 "Error parsing option: --devtools"
    -- lines 941–945
    let webdriver_port ←
      optParse m.webdriver parseU16 "Error parsing option: --webdriver"
    -- lines 947–960
    let initial_window_size ← initialWindowSizeOf m.resolution
    -- lines 962–964
    let g := if m.bigM then { g with multiprocess := true } else g
    -- lines 966–972
    let user_agent := match m.uStr with
      | some "ios" => default_user_agent_string .iOS
      | some "android" => default_user_agent_string .android
      | some "desktop" => default_user_agent_string .desktop
      | some ua => ua
      | none => default_user_agent_string DEFAULT_USER_AGENT
    -- lines 974–987
    let user_stylesheets ← readStylesheets env m.userStylesheets
    -- lines 989–990
    let do_not_use_native_titlebar := m.bPresent || !env.prefNativeTitlebar
    -- lines 992–993
    let enable_subpixel_text_antialiasing :=
      !debug_options.disable_subpixel_aa && env.prefSubpixelAA
    -- line 995
    let is_printing_version := m.version
    -- lines 997–1059
    let opts : Opts :=
      { is_running_problem_test := is_running_problem_test
        url := url_opt
        tile_size := tile_size
        device_pixels_per_px := device_pixels_per_px
        time_profiling := time_profiling
        time_profiler_trace_path := m.profilerTracePath
        mem_profiler_period := mem_profiler_period
        nonincremental_layout := nonincremental_layout
        userscripts := m.userscripts
        user_stylesheets := user_stylesheets
        output_file := m.oStr
        replace_surrogates := debug_options.replace_surrogates
        gc_profile := debug_options.gc_profile
        load_webfonts_synchronously := debug_options.load_webfonts_synchronously
        headless := m.zHeadless
        angle := m.angle
        hard_fail := m.fPresent && !m.bigF
        bubble_inline_sizes_separately := bubble_inline_sizes_separately
        profile_script_events := debug_options.profile_script_events
        profile_heartbeats := debug_options.profile_heartbeats
        trace_layout := debug_options.trace_layout
        debugger_port := debugger_port
        devtools_port := devtools_port
        webdriver_port := webdriver_port
        initial_window_size := initial_window_size
        user_agent := user_agent
        multiprocess := m.bigM
        sandbox := m.bigS
        random_pipeline_closure_probability := random_pipeline_closure_probability
        random_pipeline_closure_seed := random_pipeline_closure_seed
        show_debug_fragment_borders := debug_options.show_fragment_borders
        show_debug_parallel_layout := debug_options.show_parallel_layout
        enable_text_antialiasing := !debug_options.disable_text_aa
        enable_subpixel_text_antialiasing := enable_subpixel_text_antialiasing
        enable_canvas_antialiasing := !debug_options.disable_canvas_aa
        dump_style_tree := debug_options.dump_style_tree
        dump_rule_tree := debug_options.dump_rule_tree
        dump_flow_tree := debug_options.dump_flow_tree
        dump_display_list := debug_options.dump_display_list
        dump_display_list_json := debug_options.dump_display_list_json
        relayout_event := debug_options.relayout_event
        disable_share_style_cache := debug_options.disable_share_style_cache
        style_sharing_stats := debug_options.style_sharing_stats
        convert_mouse_to_touch := debug_options.convert_mouse_to_touch
        exit_after_load := m.xPresent
        no_native_titlebar := do_not_use_native_titlebar
        enable_vsync := !debug_options.disable_vsync
        webrender_stats := debug_options.webrender_stats
        use_msaa := debug_options.use_msaa
        config_dir := m.configDir
        full_backtraces := debug_options.full_backtraces
        is_printing_version := is_printing_version
        webrender_record := debug_options.webrender_record
        webrender_batch := !debug_options.webrender_disable_batch
        shaders_dir := m.shaders
        precache_shaders := debug_options.precache_shaders
        signpost := debug_options.signpost
        certificate_path := m.certificatePath
        unminify_js := m.unminifyJs
        print_pwm := m.printPwm
        clean_shutdown := m.cleanShutdown }
    -- line 1061
    let g := set_options opts g
    -- line 1067: prefs::add_user_prefs() — modelled from the spec as merging
    -- the bulk user preference entries into the mapping
    let g := { g with
      prefsMap := env.userPrefs.foldl (fun pm p => prefsInsert pm p.1 p.2) g.prefsMap }
    -- lines 1069–1071
    let g ← m.prefs.foldlM (fun g pref => do
        let pm ← parse_pref_from_command_line env.schema g.prefsMap pref
        pure { g with prefsMap := pm }) g
    -- lines 1073–1075: set_pref!(layout.threads, layout_threads as i64)
    let g := match layout_threads with
      | some layout_threads =>
        { g with prefsMap :=
            prefsInsert g.prefsMap "layout.threads" (.int (Int.ofNat layout_threads)) }
      | none => g
    -- line 1077
    return (.chromeProcess, g)

/-- `from_cmdline_args` (opts.rs lines 616–1078) from the point where the
`getopts` match object exists (line 787), as a transformer of the global
state `g`: help exits with usage (lines 787–790), a `content-process`
argument sets `MULTIPROCESS` and short-circuits with the channel id
(lines 794–797), otherwise the full resolution runs.  On a
process-terminating path the `Term` value is returned and the
(unobservable) global state is discarded. -/
def from_cmdline_args (env : Env) (m : Matches) (g : Global) :
    Except Term (ArgumentParsingResult × Global) :=
  if m.help then .error .usageExit
  else
    match m.contentProcess with
    | some content_process =>
      .ok (.contentProcess content_process, { g with multiprocess := true })
    | none => fromCmdlineArgsMain env m g

/-! ## Verified properties -/

/-- A concrete environment for closed evaluations: both `pref!` reads give
their default `true`, no user prefs, an empty preference schema, no
readable files, URL resolution by `servoUrlParse`. -/
def envDefaultPrefs : Env :=
  { prefNativeTitlebar := true, prefSubpixelAA := true
    schema := fun _ => false, userPrefs := [], readFile := fun _ => none
    urlOrFilename := servoUrlParse }

/-- Whether an outcome is the `args_fail` path (stderr message and
`process::exit(1)`). -/
def isArgsFail {α : Type} (r : Except Term α) : Bool :=
  match r with
  | .error (.argsFail _) => true
  | _ => false

/-- C9: after `set_options` publishes a snapshot, the mirrored
`MULTIPROCESS` flag read by `multiprocess()` equals the published
snapshot's own `multiprocess` field. -/
theorem set_options_multiprocess_agreement (opts : Opts) (g : Global) :
    multiprocessQuery (set_options opts g) =
      (set_options opts g).options.multiprocess := rfl

/-- C5: `parse_cli_pref_value` is a total function realizing the five-case
ordered trial: absent value or `"true"` gives `Bool true`; `"false"` gives
`Bool false`; `"42"` parses as a signed 64-bit integer; `"3.14"` falls
through to the float parse (the decimal 3.14 is `finite false 314 (-2)`);
`"abc"` and `"42abc"` fall through to the unmodified string, without
panicking. -/
theorem parse_cli_pref_value_five_case_trial :
    parse_cli_pref_value none = .bool true ∧
    parse_cli_pref_value (some "true") = .bool true ∧
    parse_cli_pref_value (some "false") = .bool false ∧
    parse_cli_pref_value (some "42") = .int 42 ∧
    parse_cli_pref_value (some "3.14") = .float (.finite false 314 (-2)) ∧
    parse_cli_pref_value (some "abc") = .str "abc" ∧
    parse_cli_pref_value (some "42abc") = .str "42abc" := by decide

/-- C7: the profiler argument is routed by the ordered trial of
`timeProfilingOf`: `"5"` parses as a float and yields periodic stdout with
interval 5.0; `"http://localhost:8086"` fails the float parse but parses as
a URL and yields remote-database routing with the three credential options;
`"trace.txt"` fails both and yields file routing; `-p` present with no value
yields periodic stdout with interval 5.0. -/
theorem time_profiling_ordered_trial :
    timeProfilingOf { emptyMatches with pPresent := true, pStr := some "5" } =
      some (.stdout (.finite false 5 0)) ∧
    timeProfilingOf { emptyMatches with
        pPresent := true, pStr := some "http://localhost:8086" } =
      some (.db "http://localhost:8086" none none none) ∧
    timeProfilingOf { emptyMatches with
        pPresent := true, pStr := some "trace.txt" } =
      some (.fileName "trace.txt") ∧
    timeProfilingOf { emptyMatches with pPresent := true } =
      some (.stdout (.finite false 5 0)) := by decide

/-- C1 (divergence witness): the `-Z` token `disable-canvas-aa` does not set
the `disable_canvas_aa` field of the debug-options record; it sets
`disable_text_aa` instead (opts.rs line 353), so downstream the snapshot
keeps `enable_canvas_antialiasing = true` and wrongly gets
`enable_text_antialiasing = false`. -/
theorem extend_disable_canvas_aa_wrong_field :
    DebugOptions.extend DebugOptions.default "disable-canvas-aa" =
      ({ DebugOptions.default with disable_text_aa := true }, none) ∧
    (DebugOptions.extend DebugOptions.default
        "disable-canvas-aa").1.disable_canvas_aa = false ∧
    (from_cmdline_args envDefaultPrefs
        { emptyMatches with zStrings := ["disable-canvas-aa"] } initGlobal).map
      (fun r => (r.2.options.enable_canvas_antialiasing,
                 r.2.options.enable_text_antialiasing)) = .ok (true, false) := by
  decide

/-- C2 (divergence witness): the resolution string `"1280x800"` yields the
window size (1280, 800), but `"800"` makes `from_cmdline_args` terminate by
the out-of-bounds index panic on `res[1]` (opts.rs line 957), not by the
`args_fail` resolution parse error. -/
theorem resolution_parse_behavior :
    initialWindowSizeOf (some "1280x800") = .ok (1280, 800) ∧
    (from_cmdline_args envDefaultPrefs
        { emptyMatches with resolution := some "1280x800" } initGlobal).map
      (fun r => r.2.options.initial_window_size) = .ok (1280, 800) ∧
    initialWindowSizeOf (some "800") =
      .error (.panicMsg "index out of bounds") ∧
    from_cmdline_args envDefaultPrefs
        { emptyMatches with resolution := some "800" } initGlobal =
      .error (.panicMsg "index out of bounds") ∧
    isArgsFail (from_cmdline_args envDefaultPrefs
        { emptyMatches with resolution := some "800" } initGlobal) = false := by
  decide

/-- C3 counterexample: the snapshot assembled by the full pipeline on an
empty argument list is NOT equal to `default_opts` — the two disagree on
`hard_fail`, which `default_opts` sets to `true` while the empty-argument
resolution computes `opt_present("f") && !opt_present("F") = false`
(opts.rs line 1014 versus line 568). -/
theorem empty_args_opts_ne_default_opts :
    (from_cmdline_args envDefaultPrefs emptyMatches initGlobal).map
      (fun r => r.2.options) ≠ .ok default_opts ∧
    (from_cmdline_args envDefaultPrefs emptyMatches initGlobal).map
      (fun r => r.2.options.hard_fail) = .ok false ∧
    default_opts.hard_fail = true := by decide

/-- C3 amended: before `set_options` first runs the store holds exactly
`default_opts` (the `OPTIONS` initializer, opts.rs line 1089), and —
provided the two external pref reads `shell.native_titlebar.enabled` and
`gfx.subpixel_text_antialiasing.enabled` default to `true` — the snapshot
resolved from an empty argument list agrees with `default_opts` on every
field except `hard_fail`, which resolution leaves `false`. -/
theorem empty_args_opts_default_except_hard_fail
    (schema : String → Bool) (userPrefs : List (String × PrefValue))
    (readFile : String → Option (List Nat))
    (urlOrFilename : String → Option String) (g : Global) :
    initGlobal.options = default_opts ∧
    (from_cmdline_args
        { prefNativeTitlebar := true, prefSubpixelAA := true
          schema := schema, userPrefs := userPrefs, readFile := readFile
          urlOrFilename := urlOrFilename } emptyMatches g).map
      (fun r => r.2.options) =
      .ok { default_opts with hard_fail := false } := ⟨rfl, rfl⟩

/-- C4 counterexample: a command-line preference override with a name the
external schema rejects does not terminate through the `args_fail`
stderr-print-and-`exit(1)` path; `parse_pref_from_command_line` panics via
`.expect(..)` (opts.rs line 1108). -/
theorem unknown_pref_terminates_by_panic_not_exit1 :
    parse_pref_from_command_line (fun _ => false) [] "bogus.pref" =
      .error (.panicMsg "Error setting preference: bogus.pref") ∧
    isArgsFail
      (parse_pref_from_command_line (fun _ => false) [] "bogus.pref") =
      false := by decide

/-- C4 amended: for every override whose name (the part before the first
`'='`) is unknown to the external preference schema, applying the override
is fatal via a Rust panic carrying the message
`Error setting preference: <override>` — a panic, not a stderr print with
`process::exit(1)`. -/
theorem unknown_pref_name_panics (schema : String → Bool) (m : PrefsMap)
    (pref : String) (h : schema (splitn2 pref '=').1 = false) :
    parse_pref_from_command_line schema m pref =
      .error (.panicMsg ("Error setting preference: " ++ pref)) := by
  simp [parse_pref_from_command_line, prefMapSet, h]

/-- Witness for `unknown_pref_name_panics` at the override `bogus.pref`
with an empty schema. -/
theorem unknown_pref_name_panics_witness :
    ((fun (_ : String) => false) (splitn2 "bogus.pref" '=').1 = false) ∧
    parse_pref_from_command_line (fun _ => false) [] "bogus.pref" =
      .error (.panicMsg ("Error setting preference: " ++ "bogus.pref")) :=
  ⟨rfl, unknown_pref_name_panics (fun _ => false) [] "bogus.pref" rfl⟩

/-- C8: with help absent and a `content-process` channel supplied,
`from_cmdline_args` stores `true` into the multiprocess flag and returns the
distinguished content-process result carrying exactly the supplied channel
id, leaving the options store untouched (no snapshot published); reading
`multiprocess()` immediately afterwards gives `true`. -/
theorem content_process_short_circuit (env : Env) (m : Matches) (g : Global)
    (chan : String) (hhelp : m.help = false)
    (hcp : m.contentProcess = some chan) :
    from_cmdline_args env m g =
      .ok (.contentProcess chan, { g with multiprocess := true }) ∧
    multiprocessQuery { g with multiprocess := true } = true := by
  refine ⟨?_, rfl⟩
  unfold from_cmdline_args
  rw [hhelp, hcp]
  rfl

/-- Witness for `content_process_short_circuit`: a match object carrying
only `content-process servo-ipc-channel.abcdefg`. -/
theorem content_process_short_circuit_witness :
    ({ emptyMatches with
        contentProcess := some "servo-ipc-channel.abcdefg" } : Matches).help =
      false ∧
    ({ emptyMatches with
        contentProcess := some "servo-ipc-channel.abcdefg" } :
        Matches).contentProcess = some "servo-ipc-channel.abcdefg" ∧
    (from_cmdline_args envDefaultPrefs
        { emptyMatches with
          contentProcess := some "servo-ipc-channel.abcdefg" } initGlobal =
        .ok (.contentProcess "servo-ipc-channel.abcdefg",
          { initGlobal with multiprocess := true }) ∧
      multiprocessQuery { initGlobal with multiprocess := true } = true) :=
  ⟨rfl, rfl,
    content_process_short_circuit envDefaultPrefs
      { emptyMatches with
        contentProcess := some "servo-ipc-channel.abcdefg" }
      initGlobal "servo-ipc-channel.abcdefg" rfl rfl⟩

/-- `splitn2List` leaves a separator-free list whole. -/
theorem splitn2List_no_sep (sep : Char) (a : List Char) (h : sep ∉ a) :
    splitn2List sep a = (a, none) := by
  induction a with
  | nil => rfl
  | cons c cs ih =>
    simp only [List.mem_cons, not_or] at h
    rw [splitn2List, if_neg (fun hc => h.1 hc.symm), ih h.2]

/-- `splitn2List` cuts at the first separator and keeps the remainder
whole. -/
theorem splitn2List_first (sep : Char) (a b : List Char) (h : sep ∉ a) :
    splitn2List sep (a ++ sep :: b) = (a, some b) := by
  induction a with
  | nil => simp [splitn2List]
  | cons c cs ih =>
    simp only [List.mem_cons, not_or] at h
    rw [List.cons_append, splitn2List, if_neg (fun hc => h.1 hc.symm), ih h.2]

/-- C10: `parse_pref_from_command_line` splits only on the first `'='`: for
a name `a` free of `'='`, the input `a ++ "=" ++ b` resolves to name `a`
with the entire remainder `b` (further `'='` included) passed raw to
coercion, and an input with no `'='` at all resolves to name `a` with an
absent value, which coerces to boolean `true`. -/
theorem pref_split_on_first_equals (a b : String) (schema : String → Bool)
    (m : PrefsMap) (ha : '=' ∉ a.data) (hs : schema a = true) :
    splitn2 (a ++ "=" ++ b) '=' = (a, some b) ∧
    splitn2 a '=' = (a, none) ∧
    parse_pref_from_command_line schema m (a ++ "=" ++ b) =
      .ok (prefsInsert m a (parse_cli_pref_value (some b))) ∧
    parse_pref_from_command_line schema m a =
      .ok (prefsInsert m a (.bool true)) := by
  have hdata : (a ++ "=" ++ b).data = a.data ++ '=' :: b.data := by
    simp [String.data_append]
  have h1 : splitn2 (a ++ "=" ++ b) '=' = (a, some b) := by
    rw [splitn2, hdata, splitn2List_first _ _ _ ha]
    rfl
  have h2 : splitn2 a '=' = (a, none) := by
    rw [splitn2, splitn2List_no_sep _ _ ha]
    rfl
  refine ⟨h1, h2, ?_, ?_⟩
  · simp [parse_pref_from_command_line, prefMapSet, h1, hs]
  · simp [parse_pref_from_command_line, prefMapSet, h2, hs,
      parse_cli_pref_value]

/-- Witness for `pref_split_on_first_equals`: the override `a=b=c` sets
preference `a` to the raw string `b=c`, and the bare override `a` sets it
to boolean `true`. -/
theorem pref_split_on_first_equals_witness :
    ('=' ∉ "a".data) ∧ ((fun n => n == "a") "a" = true) ∧
    (splitn2 ("a" ++ "=" ++ "b=c") '=' = ("a", some "b=c") ∧
      splitn2 "a" '=' = ("a", none) ∧
      parse_pref_from_command_line (fun n => n == "a") []
          ("a" ++ "=" ++ "b=c") =
        .ok (prefsInsert [] "a" (parse_cli_pref_value (some "b=c"))) ∧
      parse_pref_from_command_line (fun n => n == "a") [] "a" =
        .ok (prefsInsert [] "a" (.bool true))) :=
  ⟨by decide, by decide,
    pref_split_on_first_equals "a" "b=c" (fun n => n == "a") []
      (by decide) (by decide)⟩

/-- Whether a token is accepted does not depend on the record: `none`
transfers between states. -/
theorem applyToken_none_congr (d d' : DebugOptions) (t : String)
    (h : applyToken d t = none) : applyToken d' t = none := by
  cases h' : applyToken d' t with
  | none => rfl
  | some x =>
    have hs : (applyToken d t).isSome := by
      rw [(applyToken_isSome_iff d d' t)]
      rw [h']
      rfl
    rw [h] at hs
    exact absurd hs (by simp)

/-- A token list accepted from one record state is accepted from any
other. -/
theorem applyAll_exists (d d' : DebugOptions) (ts : List String)
    (d₁ : DebugOptions) (h : applyAll d ts = some d₁) :
    ∃ d₁', applyAll d' ts = some d₁' := by
  induction ts generalizing d d' with
  | nil => exact ⟨d', rfl⟩
  | cons t ts ih =>
    cases ha : applyToken d t with
    | none => rw [applyAll, ha] at h; simp at h
    | some dm =>
      rw [applyAll, ha] at h
      simp only [Option.some_bind] at h
      cases ha' : applyToken d' t with
      | none =>
        have : applyToken d t = none := applyToken_none_congr d' d t ha'
        rw [this] at ha; cases ha
      | some dm' =>
        obtain ⟨d₁', h'⟩ := ih dm dm' h
        exact ⟨d₁', by rw [applyAll, ha']; simpa using h'⟩

/-- The `extend` loop over `ts₁ ++ u :: ts₂`, when every token of `ts₁` is
known or empty (reaching state `d₁`) and `u` is unknown: it stops at `u`,
returns `u` as the error and has already applied exactly `ts₁`. -/
theorem extendTokens_append_unknown (d d₁ : DebugOptions)
    (ts₁ ts₂ : List String) (u : String) (h : applyAll d ts₁ = some d₁)
    (hu : applyToken d₁ u = none) :
    extendTokens d (ts₁ ++ u :: ts₂) = (d₁, some u) := by
  induction ts₁ generalizing d with
  | nil =>
    rw [applyAll] at h
    injection h with h
    subst h
    rw [List.nil_append, extendTokens, hu]
  | cons t ts ih =>
    cases ha : applyToken d t with
    | none => rw [applyAll, ha] at h; simp at h
    | some dm =>
      rw [applyAll, ha] at h
      simp only [Option.some_bind] at h
      rw [List.cons_append, extendTokens, ha]
      exact ih dm h

/-- The `-Z` loop fails on its first string exactly as `extend` does. -/
theorem extendAllZ_err (d d' : DebugOptions) (s e : String)
    (rest : List String) (h : DebugOptions.extend d s = (d', some e)) :
    extendAllZ d (s :: rest) =
      .error (.argsFail ("error: unrecognized debug option: " ++ e)) := by
  rw [extendAllZ, h]

/-- C6: for a `-Z` string splitting into known-or-empty tokens `ts₁`, then
an unknown token `u`, then anything: `extend` mutates the record through
exactly `ts₁` (reaching `d₁`), stops at `u` and returns exactly `u` as the
error; and `from_cmdline_args` on such a debug string is fatal via
`args_fail` with the "unrecognized debug option" message naming `u`
(stderr print and exit code 1). -/
theorem extend_unknown_token_reports_and_is_fatal
    (d d₁ : DebugOptions) (ts₁ ts₂ : List String) (u s : String)
    (env : Env) (m : Matches) (g : Global)
    (hsplit : rustSplitChar ',' s = ts₁ ++ u :: ts₂)
    (happly : applyAll d ts₁ = some d₁)
    (hunknown : applyToken d₁ u = none)
    (hhelp : m.help = false) (hcp : m.contentProcess = none)
    (hz : m.zStrings = [s]) :
    DebugOptions.extend d s = (d₁, some u) ∧
    from_cmdline_args env m g =
      .error (.argsFail ("error: unrecognized debug option: " ++ u)) := by
  have h1 : DebugOptions.extend d s = (d₁, some u) := by
    rw [DebugOptions.extend, hsplit]
    exact extendTokens_append_unknown d d₁ ts₁ ts₂ u happly hunknown
  refine ⟨h1, ?_⟩
  obtain ⟨d₁', happly'⟩ :=
    applyAll_exists d DebugOptions.default ts₁ d₁ happly
  have hu' : applyToken d₁' u = none :=
    applyToken_none_congr d₁ d₁' u hunknown
  have h2 : DebugOptions.extend DebugOptions.default s = (d₁', some u) := by
    rw [DebugOptions.extend, hsplit]
    exact extendTokens_append_unknown _ _ _ _ _ happly' hu'
  have h3 : extendAllZ DebugOptions.default [s] =
      .error (.argsFail ("error: unrecognized debug option: " ++ u)) :=
    extendAllZ_err _ _ _ _ _ h2
  unfold from_cmdline_args
  rw [hhelp, hcp]
  unfold fromCmdlineArgsMain
  rw [hz, h3]
  rfl

/-- Witness for `extend_unknown_token_reports_and_is_fatal`: the debug
string `bubble-widths,bogus` applies `bubble-widths` and then fails fatally
on `bogus`. -/
theorem extend_unknown_token_witness :
    rustSplitChar ',' "bubble-widths,bogus" =
      ["bubble-widths"] ++ "bogus" :: [] ∧
    applyAll DebugOptions.default ["bubble-widths"] =
      some { DebugOptions.default with bubble_widths := true } ∧
    applyToken { DebugOptions.default with bubble_widths := true } "bogus" =
      none ∧
    (DebugOptions.extend DebugOptions.default "bubble-widths,bogus" =
        ({ DebugOptions.default with bubble_widths := true }, some "bogus") ∧
      from_cmdline_args envDefaultPrefs
          { emptyMatches with zStrings := ["bubble-widths,bogus"] }
          initGlobal =
        .error
          (.argsFail ("error: unrecognized debug option: " ++ "bogus"))) :=
  ⟨by decide, by decide, by decide,
    extend_unknown_token_reports_and_is_fatal DebugOptions.default
      { DebugOptions.default with bubble_widths := true }
      ["bubble-widths"] [] "bogus" "bubble-widths,bogus" envDefaultPrefs
      { emptyMatches with zStrings := ["bubble-widths,bogus"] } initGlobal
      (by decide) (by decide) (by decide) rfl rfl rfl⟩
